import Mathlib

/-!
Shallow embedding of the quickie coroutine runtime core
(src/coroutine/src/runtime.rs and src/coroutine/src/done.rs).

Modelling conventions:
* Raw pointers are natural numbers; `0` is the null pointer.
* The per-thread collection of live `Context` records is a `Heap`:
  a partial map from non-null addresses to contexts.
* Dynamically typed transfer slots (`*mut dyn Any` pointing at an
  `Option<T>` holder) are modelled by `AnyOptionHolder`: a dynamic type
  tag (for `T`) together with the stored `Option`, with values encoded
  as naturals.
* Panics are explicit: an operation that may panic returns a
  `Res` value paired with the post-state; a panicking branch returns
  the state unchanged, encoding that the aborted operation neither
  reads nor writes the slot.
* The `while` loops walking the parent chain are given explicit fuel;
  running out of fuel (a cyclic or dangling chain, impossible in a
  well-formed thread state) is the `stuck` outcome.
-/

/-- Modelled from the spec: the crate error type (its module is not under
src/); only the `TypeErr` variant is referenced by the runtime, raised on
a checked transfer-slot type mismatch. -/
inductive Error where
  | TypeErr
  deriving DecidableEq, Repr

/-- A panic outcome: either a failed `assert` / `debug_assert` on a null
slot pointer, or `std::panic::panic_any` with an `Error` payload. -/
inductive Panic where
  | assertFailed
  | panicAny (e : Error)
  deriving DecidableEq, Repr

/-- Result of an operation that may panic. -/
inductive Res (α : Type) where
  | ok (a : α)
  | panic (p : Panic)
  deriving DecidableEq, Repr

/-- The pointee of a transfer-slot pointer: a type-erased `Option<T>`
holder. `tag` is the dynamic type id of `Option<T>` recorded by the
`dyn Any` vtable; `val` is the stored option, values encoded as `Nat`. -/
structure AnyOptionHolder where
  tag : Nat
  val : Option Nat
  deriving DecidableEq, Repr

/-- Generator Context (struct `Context` in runtime.rs). `regs` is the
opaque register snapshot; `child` and `parent` are context addresses
(0 = null); `para` / `ret` model the transfer-slot pointers, `none`
standing for a null pointer and `some h` for a pointer at holder `h`;
`ref` is the `_ref` counter; `local_data` is the raw local-storage
pointer (0 = null); `err` is the propagated panic payload (opaque);
`stack_guard` is the cached guard pair. -/
structure Context where
  regs : Unit
  child : Nat
  parent : Nat
  para : Option AnyOptionHolder
  ret : Option AnyOptionHolder
  ref : Nat
  local_data : Nat
  err : Option Nat
  stack_guard : Nat × Nat
  deriving DecidableEq, Repr

/-- `Context::new`: zeroed transfer slots (null pointers), `_ref = 1`,
no error, null child/parent/local-data, zero stack guard. -/
def Context.new : Context :=
  { regs := ()
    child := 0
    parent := 0
    para := none
    ret := none
    ref := 1
    local_data := 0
    err := none
    stack_guard := (0, 0) }

/-- `Context::is_generator`: true unless the parent link points at the
context's own address (`selfAddr`). -/
def Context.is_generator (self : Context) (selfAddr : Nat) : Bool :=
  self.parent != selfAddr

/-- `type_error::<A>`: logs and raises `Error::TypeErr` via
`std::panic::panic_any`. The type parameter and message only feed the
log line, so the model keeps just the panic value. -/
def type_error : Panic :=
  Panic.panicAny Error.TypeErr

/-- `Context::get_para::<T>`: asserts the inbound slot pointer is
non-null, downcasts the pointee to `Option<T>` (tag comparison) and
takes the value on success; on a tag mismatch it panics through
`type_error` leaving the slot untouched. -/
def Context.get_para (t : Nat) (self : Context) : Res (Option Nat) × Context :=
  match self.para with
  | none => (Res.panic Panic.assertFailed, self)
  | some h =>
      if h.tag = t then
        (Res.ok h.val, { self with para := some { tag := h.tag, val := none } })
      else
        (Res.panic type_error, self)

/-- `Context::coroutine_get_para::<T>`: debug-asserts the slot pointer is
non-null, then reinterprets the pointee as `Option<T>` with no dynamic
type check and takes the value. -/
def Context.coroutine_get_para (self : Context) : Res (Option Nat) × Context :=
  match self.para with
  | none => (Res.panic Panic.assertFailed, self)
  | some h =>
      (Res.ok h.val, { self with para := some { tag := h.tag, val := none } })

/-- `Context::coroutine_set_para::<T>`: debug-asserts the slot pointer is
non-null, then reinterprets the pointee as `Option<T>` with no dynamic
type check and stores `Some(data)`. -/
def Context.coroutine_set_para (v : Nat) (self : Context) : Res Unit × Context :=
  match self.para with
  | none => (Res.panic Panic.assertFailed, self)
  | some h =>
      (Res.ok (), { self with para := some { tag := h.tag, val := some v } })

/-- `Context::set_ret::<T>`: debug-asserts the outbound slot pointer is
non-null, downcasts the pointee to `Option<T>` and stores `Some(v)` on
success; on a tag mismatch it panics through `type_error` leaving the
slot untouched. -/
def Context.set_ret (t : Nat) (v : Nat) (self : Context) : Res Unit × Context :=
  match self.ret with
  | none => (Res.panic Panic.assertFailed, self)
  | some h =>
      if h.tag = t then
        (Res.ok (), { self with ret := some { tag := h.tag, val := some v } })
      else
        (Res.panic type_error, self)

/-- `Context::coroutine_set_ret::<T>`: unchecked outbound write. -/
def Context.coroutine_set_ret (v : Nat) (self : Context) : Res Unit × Context :=
  match self.ret with
  | none => (Res.panic Panic.assertFailed, self)
  | some h =>
      (Res.ok (), { self with ret := some { tag := h.tag, val := some v } })

/-- Observable effects of one run of `Done::drop_coroutine`.
`exited` records that `std::process::exit(1)` was reached, after which
nothing further in the handler runs (no unwinding, no pooling). -/
structure DoneOutcome where
  loggedError : Bool
  exited : Bool
  loggedDebug : Bool
  pooled : Bool
  deriving DecidableEq, Repr

/-- `Done::drop_coroutine`, parameterised by its external reads:
`coroutine.stack_usage()` yields `(size, used)`;
`local.get_coroutine().stack_size()` is `stack_size`;
`config().get_stack_size()` is `configStackSize`.
If `used == size` it logs an error and exits the process; otherwise it
emits the debug report when bit 0 of `stack_size` is set, and returns
the stack to the pool exactly when `size` equals the configured default.
The recovered name feeds only the debug log line and is omitted. -/
def Done.drop_coroutine (size used stack_size configStackSize : Nat) : DoneOutcome :=
  if used = size then
    { loggedError := true, exited := true, loggedDebug := false, pooled := false }
  else
    { loggedError := false
      exited := false
      loggedDebug := stack_size % 2 = 1
      pooled := size = configStackSize }

/-- C1: when a finished coroutine's used byte count equals its stack
capacity, `Done::drop_coroutine` logs an error and terminates the
process immediately, without pooling the stack or continuing; and this
is the only path on which the handler terminates the process. -/
theorem done_overflow_fatal_iff (size used ss cfg : Nat) :
    (used = size →
      Done.drop_coroutine size used ss cfg =
        { loggedError := true, exited := true, loggedDebug := false, pooled := false })
    ∧ ((Done.drop_coroutine size used ss cfg).exited = true ↔ used = size) := by
  constructor
  · intro h
    simp [Done.drop_coroutine, h]
  · constructor
    · intro h
      by_contra hne
      simp [Done.drop_coroutine, hne] at h
    · intro h
      simp [Done.drop_coroutine, h]

theorem done_overflow_fatal_iff_witness :
    Done.drop_coroutine 4096 4096 0 4096 =
      { loggedError := true, exited := true, loggedDebug := false, pooled := false } :=
  (done_overflow_fatal_iff 4096 4096 0 4096).1 rfl

/-- C3 counterexample: the debug report is not gated on the used/capacity
ratio. With capacity 100, a run at 99 percent usage emits no report while
a run at 1 percent usage does, because the gate is bit 0 of the
coroutine's `stack_size` attribute, not a usage-ratio threshold. -/
theorem done_debug_gate_counterexample :
    (Done.drop_coroutine 100 99 0 100).loggedDebug = false ∧
    (Done.drop_coroutine 100 1 1 100).loggedDebug = true := by
  decide

/-- C3 amended: on the non-overflow path the debug-level report is
emitted exactly when bit 0 of the coroutine's `stack_size` attribute is
set, and emitting or skipping it has no effect on the subsequent control
flow: the recycle decision and the exit decision are the same for any
value of that attribute. -/
theorem done_debug_gate_flag_bit (size used ss ss2 cfg : Nat) (hne : used ≠ size) :
    ((Done.drop_coroutine size used ss cfg).loggedDebug = true ↔ ss % 2 = 1)
    ∧ (Done.drop_coroutine size used ss cfg).pooled =
        (Done.drop_coroutine size used ss2 cfg).pooled
    ∧ (Done.drop_coroutine size used ss cfg).exited =
        (Done.drop_coroutine size used ss2 cfg).exited := by
  refine ⟨?_, ?_, ?_⟩ <;> simp [Done.drop_coroutine, hne]

theorem done_debug_gate_flag_bit_witness :
    ((Done.drop_coroutine 100 1 1 100).loggedDebug = true ↔ 1 % 2 = 1)
    ∧ (Done.drop_coroutine 100 1 1 100).pooled = (Done.drop_coroutine 100 1 0 100).pooled
    ∧ (Done.drop_coroutine 100 1 1 100).exited = (Done.drop_coroutine 100 1 0 100).exited :=
  done_debug_gate_flag_bit 100 1 1 0 100 (by decide)

/-- C4: on the non-overflow path the handler returns the stack to the
pool exactly when its capacity equals the configured default stack
size; a stack of any other capacity is never pooled. -/
theorem done_recycle_iff_default_size (size used ss cfg : Nat) (hne : used ≠ size) :
    (Done.drop_coroutine size used ss cfg).pooled = true ↔ size = cfg := by
  simp [Done.drop_coroutine, hne]

theorem done_recycle_iff_default_size_witness :
    (Done.drop_coroutine 4096 100 0 4096).pooled = true ↔ 4096 = 4096 :=
  done_recycle_iff_default_size 4096 100 0 4096 (by decide)

/-- C2: when a checked accessor (`get_para` on the inbound slot,
`set_ret` on the outbound slot) observes a stored dynamic type other
than `Option<T>`, it panics with the typed failure `TypeErr` and leaves
the context — in particular the slot's value — unchanged. -/
theorem checked_accessor_type_mismatch (c : Context) (t v : Nat) (h : AnyOptionHolder) :
    (c.para = some h → h.tag ≠ t →
      Context.get_para t c = (Res.panic (Panic.panicAny Error.TypeErr), c))
    ∧ (c.ret = some h → h.tag ≠ t →
      Context.set_ret t v c = (Res.panic (Panic.panicAny Error.TypeErr), c)) := by
  constructor
  · intro hp hne
    simp [Context.get_para, hp, hne, type_error]
  · intro hr hne
    simp [Context.set_ret, hr, hne, type_error]

theorem checked_accessor_type_mismatch_witness :
    Context.get_para 2 { Context.new with para := some { tag := 7, val := some 5 } } =
      (Res.panic (Panic.panicAny Error.TypeErr),
        { Context.new with para := some { tag := 7, val := some 5 } }) :=
  (checked_accessor_type_mismatch
      { Context.new with para := some { tag := 7, val := some 5 } }
      2 0 { tag := 7, val := some 5 }).1 rfl (by decide)

/-- C5: `get_para` consumes the inbound value. If the inbound slot holds
a matching-type holder storing `Some v`, `get_para` returns `Some v` and
leaves the holder empty, so an immediately following `get_para` with no
intervening send returns `None`. -/
theorem get_para_consumes (c : Context) (t v : Nat)
    (hp : c.para = some { tag := t, val := some v }) :
    (Context.get_para t c).1 = Res.ok (some v)
    ∧ (Context.get_para t c).2.para = some { tag := t, val := none }
    ∧ (Context.get_para t (Context.get_para t c).2).1 = Res.ok none := by
  refine ⟨?_, ?_, ?_⟩ <;> simp [Context.get_para, hp]

theorem get_para_consumes_witness :
    (Context.get_para 3 { Context.new with para := some { tag := 3, val := some 9 } }).1 =
      Res.ok (some 9)
    ∧ (Context.get_para 3
        { Context.new with para := some { tag := 3, val := some 9 } }).2.para =
          some { tag := 3, val := none }
    ∧ (Context.get_para 3
        (Context.get_para 3
          { Context.new with para := some { tag := 3, val := some 9 } }).2).1 =
            Res.ok none :=
  get_para_consumes { Context.new with para := some { tag := 3, val := some 9 } } 3 9 rfl

/-- C10: unchecked round trip. On a context whose inbound-slot pointer
is installed (pointing at an `Option<T>` holder of any dynamic tag),
`coroutine_set_para v` succeeds, a following `coroutine_get_para`
returns `Some v`, and a second `coroutine_get_para` with no intervening
set returns `None`; no dynamic type verification is performed, as the
result holds for every stored tag. -/
theorem coroutine_para_roundtrip (c : Context) (h : AnyOptionHolder) (v : Nat)
    (hp : c.para = some h) :
    (Context.coroutine_set_para v c).1 = Res.ok ()
    ∧ (Context.coroutine_get_para (Context.coroutine_set_para v c).2).1 = Res.ok (some v)
    ∧ (Context.coroutine_get_para
        (Context.coroutine_get_para (Context.coroutine_set_para v c).2).2).1 = Res.ok none := by
  refine ⟨?_, ?_, ?_⟩ <;>
    simp [Context.coroutine_set_para, Context.coroutine_get_para, hp]

theorem coroutine_para_roundtrip_witness :
    (Context.coroutine_set_para 42
      { Context.new with para := some { tag := 11, val := none } }).1 = Res.ok ()
    ∧ (Context.coroutine_get_para
        (Context.coroutine_set_para 42
          { Context.new with para := some { tag := 11, val := none } }).2).1 =
            Res.ok (some 42)
    ∧ (Context.coroutine_get_para
        (Context.coroutine_get_para
          (Context.coroutine_set_para 42
            { Context.new with para := some { tag := 11, val := none } }).2).2).1 =
              Res.ok none :=
  coroutine_para_roundtrip
    { Context.new with para := some { tag := 11, val := none } }
    { tag := 11, val := none } 42 rfl

/-- The per-thread heap of live contexts: a partial map from non-null
addresses to `Context` records. -/
abbrev Heap := Nat → Option Context

/-- Outcome of the `coroutine_ctx` walk: the address of the returned
context, `notFound` for `None` (the loop reached the root), or `stuck`
for a walk that dereferences a dangling pointer or never reaches the
root (impossible in a well-formed thread state; modelled via fuel). -/
inductive WalkResult where
  | found (addr : Nat)
  | notFound
  | stuck
  deriving DecidableEq, Repr

/-- The `while` loop of `ContextStack::coroutine_ctx`: starting from
context address `ctx`, walk parent links until the root, returning the
first context whose `local_data` pointer is non-null. -/
def coroutine_ctx_loop (h : Heap) (root : Nat) : Nat → Nat → WalkResult
  | 0, _ => WalkResult.stuck
  | fuel + 1, ctx =>
      if ctx = root then WalkResult.notFound
      else
        match h ctx with
        | none => WalkResult.stuck
        | some c =>
            if c.local_data ≠ 0 then WalkResult.found ctx
            else coroutine_ctx_loop h root fuel c.parent

/-- `ContextStack::coroutine_ctx`: dereference the root and run the
walk from `root.parent` (the top context). -/
def ContextStack.coroutine_ctx (h : Heap) (root fuel : Nat) : WalkResult :=
  match h root with
  | none => WalkResult.stuck
  | some r => coroutine_ctx_loop h root fuel r.parent

/-- The `while` loop of the free function `get_local_data`: the same
walk, returning the found context's `local_data` pointer, or the null
pointer (`some 0`) when the loop reaches the root; `none` is the stuck
case. -/
def get_local_data_loop (h : Heap) (root : Nat) : Nat → Nat → Option Nat
  | 0, _ => none
  | fuel + 1, ctx =>
      if ctx = root then some 0
      else
        match h ctx with
        | none => none
        | some c =>
            if c.local_data ≠ 0 then some c.local_data
            else get_local_data_loop h root fuel c.parent

/-- The mutable thread-local state: `ROOT_CONTEXT_P` (0 = null, i.e.
not yet initialised) and the heap of contexts. -/
structure ThreadState where
  rootP : Nat
  heap : Heap

/-- `ContextStack::init_root` builds the root context: a fresh
`Context::new` whose parent pointer is set to its own address. -/
def ContextStack.init_root (fresh : Nat) : Context :=
  { Context.new with parent := fresh }

/-- `ContextStack::current`: return the thread's root pointer, lazily
allocating the root context (at the fresh non-null address `fresh`,
standing for the leaked box) and storing it in `ROOT_CONTEXT_P` on
first use. -/
def ContextStack.current (s : ThreadState) (fresh : Nat) : Nat × ThreadState :=
  if s.rootP = 0 then
    (fresh,
      { rootP := fresh
        heap := fun a =>
          if a = fresh then some (ContextStack.init_root fresh) else s.heap a })
  else
    (s.rootP, s)

/-- `ContextStack::top`: dereference the root and return its parent
pointer (the address of the context currently running). -/
def ContextStack.top (h : Heap) (root : Nat) : Option Nat :=
  (h root).map Context.parent

/-- The free function `is_generator`: take `current()` and test whether
the root's child link is non-null. `none` is the (impossible) case of a
dangling root pointer. -/
def is_generator (s : ThreadState) (fresh : Nat) : Option Bool :=
  let env := ContextStack.current s fresh
  (env.2.heap env.1).map fun root => root.child != 0

/-- The free function `get_local_data`: take `current()`, dereference
the root, and run the walk from `root.parent`. -/
def get_local_data (s : ThreadState) (fresh fuel : Nat) : Option Nat :=
  let env := ContextStack.current s fresh
  match env.2.heap env.1 with
  | none => none
  | some root => get_local_data_loop env.2.heap env.1 fuel root.parent

/-- Written from the spec's words for the walk: the chain of context
addresses from `ctx` along parent links up to, and excluding, the root;
`none` when the chain dangles or does not reach the root within fuel. -/
def chainToRoot (h : Heap) (root : Nat) : Nat → Nat → Option (List Nat)
  | 0, _ => none
  | fuel + 1, ctx =>
      if ctx = root then some []
      else
        match h ctx with
        | none => none
        | some c => (chainToRoot h root fuel c.parent).map (fun rest => ctx :: rest)

/-- Written from the spec's words: the first context on the chain whose
local-storage pointer is non-null (the innermost enclosing coroutine,
skipping plain generator frames). -/
def firstCoroutine (h : Heap) : List Nat → Option Nat
  | [] => none
  | a :: rest =>
      match h a with
      | none => none
      | some c => if c.local_data ≠ 0 then some a else firstCoroutine h rest

theorem coroutine_ctx_loop_chain (h : Heap) (root : Nat) :
    ∀ fuel ctx l, chainToRoot h root fuel ctx = some l →
      coroutine_ctx_loop h root fuel ctx =
        (match firstCoroutine h l with
         | some a => WalkResult.found a
         | none => WalkResult.notFound) := by
  intro fuel
  induction fuel with
  | zero => intro ctx l hc; simp [chainToRoot] at hc
  | succ n ih =>
      intro ctx l hc
      by_cases hroot : ctx = root
      · simp [chainToRoot, hroot] at hc
        subst hc
        simp [coroutine_ctx_loop, hroot, firstCoroutine]
      · cases hctx : h ctx with
        | none => simp [chainToRoot, hroot, hctx] at hc
        | some c =>
            simp [chainToRoot, hroot, hctx] at hc
            obtain ⟨l', hl', rfl⟩ := hc
            by_cases hl : c.local_data ≠ 0
            · simp [coroutine_ctx_loop, hroot, hctx, hl, firstCoroutine]
            · simp only [ne_eq, not_not] at hl
              simp [coroutine_ctx_loop, hroot, hctx, hl, firstCoroutine, ih c.parent l' hl']

theorem coroutine_ctx_loop_found_spec (h : Heap) (root : Nat) :
    ∀ fuel ctx a, coroutine_ctx_loop h root fuel ctx = WalkResult.found a →
      ∃ c, h a = some c ∧ c.local_data ≠ 0 ∧ a ≠ root := by
  intro fuel
  induction fuel with
  | zero => intro ctx a hf; simp [coroutine_ctx_loop] at hf
  | succ n ih =>
      intro ctx a hf
      by_cases hroot : ctx = root
      · simp [coroutine_ctx_loop, hroot] at hf
      · cases hctx : h ctx with
        | none => simp [coroutine_ctx_loop, hroot, hctx] at hf
        | some c =>
            by_cases hl : c.local_data ≠ 0
            · simp [coroutine_ctx_loop, hroot, hctx, hl] at hf
              exact hf ▸ ⟨c, hctx, hl, hroot⟩
            · simp [coroutine_ctx_loop, hroot, hctx, hl] at hf
              exact ih c.parent a hf

theorem walk_loops_agree (h : Heap) (root : Nat) :
    ∀ fuel ctx,
      get_local_data_loop h root fuel ctx =
        (match coroutine_ctx_loop h root fuel ctx with
         | WalkResult.stuck => none
         | WalkResult.notFound => some 0
         | WalkResult.found a => (h a).map Context.local_data) := by
  intro fuel
  induction fuel with
  | zero => intro ctx; simp [get_local_data_loop, coroutine_ctx_loop]
  | succ n ih =>
      intro ctx
      by_cases hroot : ctx = root
      · simp [get_local_data_loop, coroutine_ctx_loop, hroot]
      · cases hctx : h ctx with
        | none => simp [get_local_data_loop, coroutine_ctx_loop, hroot, hctx]
        | some c =>
            by_cases hl : c.local_data ≠ 0
            · simp [get_local_data_loop, coroutine_ctx_loop, hroot, hctx, hl]
            · simp [get_local_data_loop, coroutine_ctx_loop, hroot, hctx, hl, ih c.parent]

/-- C6: `coroutine_ctx` walks parent links starting from `top()`
(= the root's parent pointer) and returns exactly the first context on
that chain with a non-null local-storage pointer; it returns `None`
when no context strictly below the root on the chain has non-null
local storage; and the root context itself is never returned. -/
theorem coroutine_ctx_first_nonnull_local (h : Heap) (root fuel : Nat)
    (r : Context) (l : List Nat) (hr : h root = some r)
    (hc : chainToRoot h root fuel r.parent = some l) :
    ContextStack.top h root = some r.parent
    ∧ ContextStack.coroutine_ctx h root fuel =
        (match firstCoroutine h l with
         | some a => WalkResult.found a
         | none => WalkResult.notFound)
    ∧ ∀ a, ContextStack.coroutine_ctx h root fuel = WalkResult.found a → a ≠ root := by
  refine ⟨?_, ?_, ?_⟩
  · simp [ContextStack.top, hr]
  · simp only [ContextStack.coroutine_ctx, hr]
    exact coroutine_ctx_loop_chain h root fuel r.parent l hc
  · intro a hf
    simp only [ContextStack.coroutine_ctx, hr] at hf
    obtain ⟨c, _, _, hne⟩ := coroutine_ctx_loop_found_spec h root fuel r.parent a hf
    exact hne

/-- A sample thread heap: root at address 1 whose parent pointer marks
address 2 as top; a plain generator frame at 2 (null local storage)
whose parent is 3; a coroutine at 3 (non-null local storage) whose
parent is the root. -/
def exRoot : Context := { Context.new with parent := 2 }

def exGen : Context := { Context.new with parent := 3 }

def exCo : Context := { Context.new with parent := 1, local_data := 5 }

def exHeap : Heap := fun a =>
  if a = 1 then some exRoot
  else if a = 2 then some exGen
  else if a = 3 then some exCo
  else none

theorem coroutine_ctx_first_nonnull_local_witness :
    ContextStack.top exHeap 1 = some 2
    ∧ ContextStack.coroutine_ctx exHeap 1 10 =
        (match firstCoroutine exHeap [2, 3] with
         | some a => WalkResult.found a
         | none => WalkResult.notFound)
    ∧ ∀ a, ContextStack.coroutine_ctx exHeap 1 10 = WalkResult.found a → a ≠ 1 :=
  coroutine_ctx_first_nonnull_local exHeap 1 10 exRoot [2, 3] rfl rfl

/-- C7: `get_local_data` computes the same walk as `coroutine_ctx`: it
returns the null pointer exactly when `coroutine_ctx` returns `None`,
and when `coroutine_ctx` returns a context it returns exactly that
context's `local_data` pointer. -/
theorem get_local_data_refines_coroutine_ctx (s : ThreadState) (fresh fuel : Nat) :
    (get_local_data s fresh fuel = some 0 ↔
      ContextStack.coroutine_ctx (ContextStack.current s fresh).2.heap
        (ContextStack.current s fresh).1 fuel = WalkResult.notFound)
    ∧ ∀ a c,
        ContextStack.coroutine_ctx (ContextStack.current s fresh).2.heap
          (ContextStack.current s fresh).1 fuel = WalkResult.found a →
        (ContextStack.current s fresh).2.heap a = some c →
        get_local_data s fresh fuel = some c.local_data := by
  set h := (ContextStack.current s fresh).2.heap with hh
  set root := (ContextStack.current s fresh).1 with hroot
  have hgld : get_local_data s fresh fuel =
      match h root with
      | none => none
      | some r => get_local_data_loop h root fuel r.parent := by
    simp only [get_local_data, hh, hroot]
  cases hr : h root with
  | none =>
      constructor
      · rw [hgld, hr]
        simp [ContextStack.coroutine_ctx, hr]
      · intro a c hf
        simp [ContextStack.coroutine_ctx, hr] at hf
  | some r =>
      have hcc : ContextStack.coroutine_ctx h root fuel =
          coroutine_ctx_loop h root fuel r.parent := by
        simp [ContextStack.coroutine_ctx, hr]
      have hagree := walk_loops_agree h root fuel r.parent
      have hgld2 : get_local_data s fresh fuel = get_local_data_loop h root fuel r.parent := by
        rw [hgld, hr]
      constructor
      · rw [hgld2, hcc, hagree]
        cases hres : coroutine_ctx_loop h root fuel r.parent with
        | stuck => simp
        | notFound => simp
        | found a =>
            obtain ⟨c, hc, hl, _⟩ := coroutine_ctx_loop_found_spec h root fuel r.parent a hres
            simp [hc, hl]
      · intro a c hf hc
        rw [hcc] at hf
        rw [hgld2, hagree, hf]
        simp [hc]

theorem get_local_data_refines_coroutine_ctx_witness :
    (get_local_data ⟨1, exHeap⟩ 99 10 = some 0 ↔
      ContextStack.coroutine_ctx (ContextStack.current ⟨1, exHeap⟩ 99).2.heap
        (ContextStack.current ⟨1, exHeap⟩ 99).1 10 = WalkResult.notFound)
    ∧ ∀ a c,
        ContextStack.coroutine_ctx (ContextStack.current ⟨1, exHeap⟩ 99).2.heap
          (ContextStack.current ⟨1, exHeap⟩ 99).1 10 = WalkResult.found a →
        (ContextStack.current ⟨1, exHeap⟩ 99).2.heap a = some c →
        get_local_data ⟨1, exHeap⟩ 99 10 = some c.local_data :=
  get_local_data_refines_coroutine_ctx ⟨1, exHeap⟩ 99 10

/-- C8: after the first call to `current()` on a thread (root pointer
still null), the lazily constructed root context's parent pointer
equals the root's own address; `is_generator` is false for the root and
true for every context whose parent pointer differs from its own
address; and `top()` before any spawn returns the root itself. -/
theorem root_parent_self_after_current (s : ThreadState) (fresh : Nat)
    (h0 : s.rootP = 0) :
    (ContextStack.current s fresh).2.heap (ContextStack.current s fresh).1 =
        some (ContextStack.init_root fresh)
    ∧ (ContextStack.init_root fresh).parent = (ContextStack.current s fresh).1
    ∧ Context.is_generator (ContextStack.init_root fresh)
        (ContextStack.current s fresh).1 = false
    ∧ (∀ (c : Context) (a : Nat), c.parent ≠ a → Context.is_generator c a = true)
    ∧ ContextStack.top (ContextStack.current s fresh).2.heap
        (ContextStack.current s fresh).1 = some (ContextStack.current s fresh).1 := by
  refine ⟨?_, ?_, ?_, ?_, ?_⟩
  · simp [ContextStack.current, h0]
  · simp [ContextStack.current, h0, ContextStack.init_root, Context.new]
  · simp [ContextStack.current, h0, Context.is_generator, ContextStack.init_root, Context.new]
  · intro c a hne
    simp [Context.is_generator, hne]
  · simp [ContextStack.current, h0, ContextStack.top, ContextStack.init_root, Context.new]

theorem root_parent_self_after_current_witness :
    (ContextStack.current ⟨0, fun _ => none⟩ 7).2.heap
        (ContextStack.current ⟨0, fun _ => none⟩ 7).1 =
      some (ContextStack.init_root 7)
    ∧ (ContextStack.init_root 7).parent = (ContextStack.current ⟨0, fun _ => none⟩ 7).1
    ∧ Context.is_generator (ContextStack.init_root 7)
        (ContextStack.current ⟨0, fun _ => none⟩ 7).1 = false
    ∧ (∀ (c : Context) (a : Nat), c.parent ≠ a → Context.is_generator c a = true)
    ∧ ContextStack.top (ContextStack.current ⟨0, fun _ => none⟩ 7).2.heap
        (ContextStack.current ⟨0, fun _ => none⟩ 7).1 =
          some (ContextStack.current ⟨0, fun _ => none⟩ 7).1 :=
  root_parent_self_after_current ⟨0, fun _ => none⟩ 7 rfl

/-- C9: the free function `is_generator` reports whether the thread
root's child link is non-null; on a fresh thread (root not yet
initialised, hence built by `current()` from `Context::new`) it is
false, because a newly constructed context has a null child pointer. -/
theorem is_generator_child_link :
    (∀ (s : ThreadState) (fresh : Nat) (c : Context),
        s.rootP ≠ 0 → s.heap s.rootP = some c →
        is_generator s fresh = some (c.child != 0))
    ∧ (∀ (s : ThreadState) (fresh : Nat), s.rootP = 0 →
        is_generator s fresh = some false)
    ∧ Context.new.child = 0 := by
  refine ⟨?_, ?_, rfl⟩
  · intro s fresh c hne hc
    simp [is_generator, ContextStack.current, hne, hc]
  · intro s fresh h0
    simp [is_generator, ContextStack.current, h0, ContextStack.init_root, Context.new]

theorem is_generator_child_link_witness :
    is_generator ⟨0, fun _ => none⟩ 7 = some false :=
  is_generator_child_link.2.1 ⟨0, fun _ => none⟩ 7 rfl
